import Mathlib

/-!
Shallow embedding of the watchthis-media-service core: the URL
normalization pipeline and the media registration / retrieval HTTP
handlers, together with proofs about the claims of the specification.

Two variants of the API module exist in the repository:
* `src/src/api.ts` (mongoose-backed, no auth middleware, 409 on a
  duplicate registration, PATCH and DELETE exposed) — embedded below
  with the suffix `A`;
* `src/unnamed/part_001` (prisma-backed, requireAuth on every media
  route, 200 on a duplicate registration, read-only) — embedded below
  with the suffix `B`.
-/

/- ===================== String helpers ===================== -/

/-- Lower-casing of a string, character by character (model of the
host/scheme lower-casing performed by the URL normalizer). -/
def lowerStr (s : String) : String := ⟨s.data.map Char.toLower⟩

/-- Drop one leading slash from a path (used to read the video id out of
a youtu.be short-link path). -/
def stripSlash (p : String) : String :=
  match p.data with
  | c :: rest => if c = '/' then ⟨rest⟩ else p
  | [] => p

/-- Whether `needle` occurs as a prefix of `hay` (character lists). -/
def isPrefixOfCh : List Char → List Char → Bool
  | [], _ => true
  | _ :: _, [] => false
  | a :: as, b :: bs => a == b && isPrefixOfCh as bs

/-- Whether `needle` occurs as a contiguous run inside `hay`. -/
def containsSub (needle : List Char) : List Char → Bool
  | [] => needle.isEmpty
  | c :: tl => isPrefixOfCh needle (c :: tl) || containsSub needle tl

/- ===================== URL normalizer model ===================== -/

/-- Result of URL validation, as produced by validateUrl in
src/utils/urlProcessor.ts (the shape consumed by the handlers). -/
structure ValidationResult where
  isValid : Bool
  error : Option String
deriving DecidableEq, Repr

/-- A URL broken into its syntactic components. The repository file
src/utils/urlProcessor.ts is not under src/, so URLs are modelled by
their parsed components rather than re-implementing a string parser. -/
structure UrlParts where
  scheme : String
  host : String
  port : Option Nat
  path : String
  query : List (String × String)
  fragment : Option String
deriving DecidableEq, Repr

/-- Whether a host string starts with a dot (a host such as .com with
no label before the dot). -/
def hostLacksLabel (h : String) : Bool :=
  match h.data with
  | c :: _ => c == '.'
  | [] => false

/-- Modelled from the spec: src/utils/urlProcessor.ts (validateUrl) is
not under src/.  Per spec section 4.1, validateUrl rejects non-http and
non-https schemes, an empty host, and a host such as .com that has no
label before the dot; everything else well-formed is accepted. -/
def validateUrl (u : UrlParts) : ValidationResult :=
  if ¬(lowerStr u.scheme = "http" ∨ lowerStr u.scheme = "https") then
    ⟨false, some "URL must use http or https protocol"⟩
  else if u.host = "" then
    ⟨false, some "URL must have a valid host"⟩
  else if hostLacksLabel u.host then
    ⟨false, some "URL must have a valid host"⟩
  else
    ⟨true, none⟩

/-- Modelled from the spec: canonicalization rule 1 — lower-case the
scheme and host. -/
def lowerParts (u : UrlParts) : UrlParts :=
  { u with scheme := lowerStr u.scheme, host := lowerStr u.host }

/-- Modelled from the spec: canonicalization rule 2 — fold known host
aliases of a platform to one canonical host: youtu.be short links and
the youtube.com / m.youtube.com hosts all fold to www.youtube.com. -/
def foldAliases (u : UrlParts) : UrlParts :=
  if u.host = "youtu.be" then
    { u with host := "www.youtube.com", path := "/watch",
             query := [("v", stripSlash u.path)] }
  else if u.host = "youtube.com" ∨ u.host = "m.youtube.com" then
    { u with host := "www.youtube.com" }
  else u

/-- A query parameter that bears resource identity on YouTube. -/
def isIdentityParam (kv : String × String) : Bool := kv.1 == "v"

/-- Modelled from the spec: canonicalization rule 3 — strip
tracking/session query parameters while preserving identity-bearing
ones (v= on YouTube); generic URLs get no tracking-parameter list. -/
def stripTracking (u : UrlParts) : UrlParts :=
  if u.host = "www.youtube.com" then
    { u with query := u.query.filter isIdentityParam }
  else u

/-- The default port of a scheme. -/
def defaultPort (scheme : String) : Option Nat :=
  if scheme = "http" then some 80
  else if scheme = "https" then some 443
  else none

/-- Modelled from the spec: canonicalization rule 4 — remove default
ports, the trailing slash of a bare path, and fragment identifiers. -/
def dropDefaults (u : UrlParts) : UrlParts :=
  { u with
    port := if u.port = defaultPort u.scheme then none else u.port,
    path := if u.path = "/" then "" else u.path,
    fragment := none }

/-- Modelled from the spec: src/utils/urlProcessor.ts (normalizeUrl) is
not under src/.  The canonicalization rules of spec section 4.1 applied
in their fixed order (re-serialization is the identity on parsed
components). -/
def normalizeUrl (u : UrlParts) : UrlParts :=
  dropDefaults (stripTracking (foldAliases (lowerParts u)))

/-- The platform tag attached to each stored media item. -/
inductive Platform
  | youtube
  | generic
deriving DecidableEq, Repr

/-- Modelled from the spec: src/utils/urlProcessor.ts (detectPlatform)
is not under src/.  Pattern-matches the host against the known YouTube
hosts; everything else is generic. -/
def detectPlatformParts (u : UrlParts) : Platform :=
  if lowerStr u.host = "youtube.com" ∨ lowerStr u.host = "www.youtube.com"
     ∨ lowerStr u.host = "m.youtube.com" ∨ lowerStr u.host = "youtu.be" then
    .youtube
  else .generic

/-- The parsed form of a YouTube short link youtu.be/X. -/
def youtuBeUrl (x : String) : UrlParts :=
  ⟨"https", "youtu.be", none, "/" ++ x, [], none⟩

/-- The parsed form of www.youtube.com/watch?v=X. -/
def watchUrl (x : String) : UrlParts :=
  ⟨"https", "www.youtube.com", none, "/watch", [("v", x)], none⟩

/-- The parsed form of m.youtube.com/watch?v=X. -/
def mWatchUrl (x : String) : UrlParts :=
  ⟨"https", "m.youtube.com", none, "/watch", [("v", x)], none⟩

/-- A concrete valid URL used to instantiate universally quantified
theorems. -/
def exampleUrl : UrlParts :=
  ⟨"HTTPS", "M.YouTube.com", some 443, "/watch",
   [("v", "abc123"), ("utm_source", "share")], some "top"⟩

/- ===================== Media data model ===================== -/

/-- The content type of a media item (MediaSchema enum). -/
inductive MediaType
  | video
  | article
  | audio
  | unknown
deriving DecidableEq, Repr

/-- Lifecycle marker of the metadata extraction (MediaSchema enum). -/
inductive ExtractionStatus
  | pending
  | completed
  | failed
deriving DecidableEq, Repr

/-- A stored media item, after the MediaSchema of src/models/media.ts
(the mongoose model embedded in the test-helper document). -/
structure MediaItem where
  id : Nat
  url : String
  normalizedUrl : String
  platform : Platform
  type : MediaType
  title : Option String
  description : Option String
  thumbnail : Option String
  duration : Option Nat
  extractionStatus : ExtractionStatus
  extractionError : Option String
  metadata : List (String × String)
  tags : List String
  createdAt : Nat
  updatedAt : Nat
deriving DecidableEq, Repr

/-- The item built by the create branch of POST /media: url,
normalizedUrl and platform from the request, type unknown,
extractionStatus pending, and the schema defaults (no optional
metadata fields, empty metadata map, empty tags). -/
def mkMedia (freshId : Nat) (url normalizedUrl : String) (platform : Platform)
    (now : Nat) : MediaItem :=
  { id := freshId, url := url, normalizedUrl := normalizedUrl,
    platform := platform, type := .unknown,
    title := none, description := none, thumbnail := none, duration := none,
    extractionStatus := .pending, extractionError := none,
    metadata := [], tags := [],
    createdAt := now, updatedAt := now }

/-- Media.findOne on the normalizedUrl key. -/
def findByNormalizedUrl (store : List MediaItem) (nu : String) : Option MediaItem :=
  store.find? (fun m => m.normalizedUrl == nu)

/-- Errors raised by the store. The unique constraint on normalizedUrl
(MediaSchema: unique true) rejects a create whose canonical URL is
already present. -/
inductive StorageError
  | duplicateKey (nu : String)
deriving DecidableEq, Repr

/-- Media.create / media.save against a store that enforces the unique
constraint on normalizedUrl: the create fails with a duplicate-key
error when the canonical URL is already stored. -/
def createWithConstraint (store : List MediaItem) (m : MediaItem) :
    Except StorageError (List MediaItem) :=
  if store.any (fun x => x.normalizedUrl == m.normalizedUrl) then
    .error (.duplicateKey m.normalizedUrl)
  else
    .ok (store ++ [m])

/-- A store operation issued by a handler, recorded in order. -/
inductive StoreOp
  | findOne
  | create
deriving DecidableEq, Repr

/-- The observable outcome of a POST /media request. -/
inductive PostOutcome
  | badRequest (msg : Option String)
  | okExisting (item : MediaItem)
  | conflictExisting (msg : String) (existing : MediaItem)
  | createdNew (item : MediaItem)
  | thrown (e : StorageError)
deriving DecidableEq, Repr

/-- The HTTP status carried by each outcome (thrown errors reach the
generic error responder, a 5xx-class response). -/
def statusOf : PostOutcome → Nat
  | .badRequest _ => 400
  | .okExisting _ => 200
  | .conflictExisting _ _ => 409
  | .createdNew _ => 201
  | .thrown _ => 500

/-- POST /media of src/src/api.ts: missing url gives 400, invalid url
gives 400 with the validator message, a canonical URL already found by
the lookup gives 409 with the existing record in the body, otherwise a
new pending item is created (201).  The store is threaded as two
snapshots — the one the findOne ran against and the one the save ran
against — so the read-then-write race window is expressible; the
catch block of the source rethrows any storage error unchanged.
The url-processor functions are parameters because
src/utils/urlProcessor.ts is not under src/. -/
def postMediaA (validate : String → ValidationResult)
    (normalize : String → String) (detect : String → Platform)
    (body : Option String) (storeAtLookup storeAtSave : List MediaItem)
    (freshId now : Nat) : PostOutcome × List MediaItem × List StoreOp :=
  match body with
  | none => (.badRequest (some "URL is required"), storeAtSave, [])
  | some url =>
    let validation := validate url
    if validation.isValid then
      let normalizedUrl := normalize url
      let platform := detect url
      match findByNormalizedUrl storeAtLookup normalizedUrl with
      | some existing =>
          (.conflictExisting "Media URL already exists" existing, storeAtSave, [.findOne])
      | none =>
          let media := mkMedia freshId url normalizedUrl platform now
          match createWithConstraint storeAtSave media with
          | .ok newStore => (.createdNew media, newStore, [.findOne, .create])
          | .error e => (.thrown e, storeAtSave, [.findOne, .create])
    else (.badRequest validation.error, storeAtSave, [])

/-- POST /media of src/unnamed/part_001: identical to the api.ts
variant except that a canonical URL already found by the lookup is
answered with 200 and the existing record. -/
def postMediaB (validate : String → ValidationResult)
    (normalize : String → String) (detect : String → Platform)
    (body : Option String) (storeAtLookup storeAtSave : List MediaItem)
    (freshId now : Nat) : PostOutcome × List MediaItem × List StoreOp :=
  match body with
  | none => (.badRequest (some "URL is required"), storeAtSave, [])
  | some url =>
    let validation := validate url
    if validation.isValid then
      let normalizedUrl := normalize url
      let platform := detect url
      match findByNormalizedUrl storeAtLookup normalizedUrl with
      | some existing => (.okExisting existing, storeAtSave, [.findOne])
      | none =>
          let media := mkMedia freshId url normalizedUrl platform now
          match createWithConstraint storeAtSave media with
          | .ok newStore => (.createdNew media, newStore, [.findOne, .create])
          | .error e => (.thrown e, storeAtSave, [.findOne, .create])
    else (.badRequest validation.error, storeAtSave, [])

/- ===================== PATCH and DELETE (api.ts only) ===================== -/

/-- The body of a PATCH /media/:id request: every updatable or
protected field may be present or absent. -/
structure UpdatePayload where
  url : Option String
  normalizedUrl : Option String
  underscoreId : Option Nat
  createdAt : Option Nat
  updatedAt : Option Nat
  title : Option String
  description : Option String
  thumbnail : Option String
  duration : Option Nat
  type : Option MediaType
  platform : Option Platform
  extractionStatus : Option ExtractionStatus
  extractionError : Option String
  metadata : Option (List (String × String))
  tags : Option (List String)
deriving DecidableEq, Repr

/-- The delete-statements at the top of the PATCH handler of
src/src/api.ts: url, normalizedUrl, _id, createdAt and updatedAt are
removed from the update payload before it reaches the store. -/
def stripProtected (u : UpdatePayload) : UpdatePayload :=
  { u with url := none, normalizedUrl := none, underscoreId := none,
           createdAt := none, updatedAt := none }

/-- Merge of two optional values: a present payload field wins. -/
def mergeOpt (a b : Option α) : Option α :=
  match a with
  | some x => some x
  | none => b

/-- findByIdAndUpdate applied to one item: every field present in the
payload is written, absent fields are kept, and the timestamps option
of the schema refreshes updatedAt. -/
def applyUpdate (m : MediaItem) (u : UpdatePayload) (now : Nat) : MediaItem :=
  { id := u.underscoreId.getD m.id,
    url := u.url.getD m.url,
    normalizedUrl := u.normalizedUrl.getD m.normalizedUrl,
    platform := u.platform.getD m.platform,
    type := u.type.getD m.type,
    title := mergeOpt u.title m.title,
    description := mergeOpt u.description m.description,
    thumbnail := mergeOpt u.thumbnail m.thumbnail,
    duration := mergeOpt u.duration m.duration,
    extractionStatus := u.extractionStatus.getD m.extractionStatus,
    extractionError := mergeOpt u.extractionError m.extractionError,
    metadata := u.metadata.getD m.metadata,
    tags := u.tags.getD m.tags,
    createdAt := u.createdAt.getD m.createdAt,
    updatedAt := now }

/-- The observable outcome of a PATCH /media/:id request. -/
inductive PatchOutcome
  | notFound
  | updated (item : MediaItem)
deriving DecidableEq, Repr

/-- PATCH /media/:id of src/src/api.ts: the protected fields are
stripped from the payload, then findByIdAndUpdate writes the rest. -/
def patchMedia (mid : Nat) (payload : UpdatePayload) (store : List MediaItem)
    (now : Nat) : PatchOutcome × List MediaItem :=
  let updates := stripProtected payload
  match store.find? (fun m => m.id == mid) with
  | none => (.notFound, store)
  | some m =>
      (.updated (applyUpdate m updates now),
       store.map (fun x => if x.id == mid then applyUpdate x updates now else x))

/-- The observable outcome of a DELETE /media/:id request. -/
inductive DeleteOutcome
  | notFound
  | deleted
deriving DecidableEq, Repr

/-- DELETE /media/:id of src/src/api.ts (findByIdAndDelete). -/
def deleteMedia (mid : Nat) (store : List MediaItem) :
    DeleteOutcome × List MediaItem :=
  match store.find? (fun m => m.id == mid) with
  | none => (.notFound, store)
  | some _ => (.deleted, store.filter (fun m => !(m.id == mid)))

/- ===================== Authentication ===================== -/

/-- The uniform error body sent to unauthenticated callers. -/
structure UniformError where
  success : Bool
  code : String
deriving DecidableEq, Repr

/-- The uniform 401 body of the spec and of the repository tests. -/
def authenticationRequired : UniformError := ⟨false, "AUTHENTICATION_REQUIRED"⟩

/-- Modelled from the spec: src/middleware/auth.ts (requireAuth) is not
under src/; only its import and use in src/unnamed/part_001 are.  Per
spec section 6, the middleware resolves the bearer credential to a
caller identity or null, and rejects a null identity with the uniform
401 body regardless of the underlying reason. -/
def requireAuth (identity : Option String) (handler : Unit → α) :
    Except UniformError α :=
  match identity with
  | none => .error authenticationRequired
  | some _ => .ok (handler ())

/-- The POST /media route of src/src/api.ts: mounted without any auth
middleware, so the handler runs whatever the caller identity is. -/
def routePostA (_identity : Option String) (validate : String → ValidationResult)
    (normalize : String → String) (detect : String → Platform)
    (body : Option String) (storeAtLookup storeAtSave : List MediaItem)
    (freshId now : Nat) :
    Except UniformError (PostOutcome × List MediaItem × List StoreOp) :=
  .ok (postMediaA validate normalize detect body storeAtLookup storeAtSave freshId now)

/-- The POST /media route of src/unnamed/part_001: requireAuth runs
first, then the handler. -/
def routePostB (identity : Option String) (validate : String → ValidationResult)
    (normalize : String → String) (detect : String → Platform)
    (body : Option String) (storeAtLookup storeAtSave : List MediaItem)
    (freshId now : Nat) :
    Except UniformError (PostOutcome × List MediaItem × List StoreOp) :=
  requireAuth identity
    (fun _ => postMediaB validate normalize detect body storeAtLookup storeAtSave freshId now)

/- ===================== Pagination and listing ===================== -/

/-- Numeric value of a run of decimal digits. -/
def parseDigits (l : List Char) : Nat :=
  l.foldl (fun acc c => acc * 10 + (c.toNat - 48)) 0

/-- The digits after an optional sign, as parseInt reads them: as many
leading decimal digits as possible, and failure when there are none. -/
def parseIntFrom (sign : Int) (cs : List Char) : Option Int :=
  let ds := cs.takeWhile Char.isDigit
  if ds.isEmpty then none else some (sign * (parseDigits ds : Int))

/-- parseInt of the raw query value: absent values (parseInt of
undefined) and digit-free strings give NaN, modelled as none. -/
def parseIntJS : Option String → Option Int
  | none => none
  | some s =>
    match s.data with
    | '-' :: rest => parseIntFrom (-1) rest
    | '+' :: rest => parseIntFrom 1 rest
    | cs => parseIntFrom 1 cs

/-- The or-else of the handlers (parseInt(x) || d): NaN and 0 are
falsy, every other number is kept. -/
def jsOrDefault (v : Option Int) (d : Int) : Int :=
  match v with
  | none => d
  | some n => if n = 0 then d else n

/-- The effective page of a request: parseInt(req.query.page) || 1. -/
def effectivePage (q : Option String) : Int := jsOrDefault (parseIntJS q) 1

/-- The effective limit of a request:
Math.min(parseInt(req.query.limit) || 20, 100). -/
def effectiveLimit (q : Option String) : Int :=
  min (jsOrDefault (parseIntJS q) 20) 100

/-- Math.ceil(a / b) on integers, as the ceiling of the exact quotient:
the negated floor division of the negated dividend. -/
def jsCeilDiv (a b : Int) : Int := -((-a).fdiv b)

/-- The pagination object of the list and search responses. -/
structure Pagination where
  page : Int
  limit : Int
  total : Int
  totalPages : Int
  hasNext : Bool
  hasPrev : Bool
deriving DecidableEq, Repr

/-- Internal consistency of an emitted pagination object: totalPages is
the ceiling of total over limit (both as the literal computation and,
for a positive limit, via the defining bounds of the ceiling), hasNext
holds exactly below the last page, and hasPrev exactly beyond page 1. -/
def paginationLawful (p : Pagination) : Prop :=
  p.totalPages = jsCeilDiv p.total p.limit ∧
  (p.hasNext = true ↔ p.page < p.totalPages) ∧
  (p.hasPrev = true ↔ 1 < p.page) ∧
  (0 < p.limit →
    (p.totalPages - 1) * p.limit < p.total ∧ p.total ≤ p.totalPages * p.limit)

/-- The optional equality filters of GET /media (platform, type,
extraction status). -/
def matchesFilter (pf : Option Platform) (tf : Option MediaType)
    (sf : Option ExtractionStatus) (m : MediaItem) : Bool :=
  (match pf with | none => true | some p => m.platform == p) &&
  (match tf with | none => true | some t => m.type == t) &&
  (match sf with | none => true | some s => m.extractionStatus == s)

/-- Insertion into a list kept sorted by createdAt descending. -/
def insertByCreatedDesc (m : MediaItem) : List MediaItem → List MediaItem
  | [] => [m]
  | x :: xs =>
      if x.createdAt ≤ m.createdAt then m :: x :: xs
      else x :: insertByCreatedDesc m xs

/-- sort createdAt: -1 of the store queries. -/
def sortByCreatedDesc (l : List MediaItem) : List MediaItem :=
  l.foldr insertByCreatedDesc []

/-- Body of a GET /media response. -/
structure ListResponse where
  media : List MediaItem
  pagination : Pagination
deriving DecidableEq, Repr

/-- GET /media of src/src/api.ts: effective page and limit from the
query, skip of (page-1)*limit, items filtered, sorted by creation time
descending and windowed, and the pagination object computed from the
matching total. -/
def listMedia (pageQ limitQ : Option String) (pf : Option Platform)
    (tf : Option MediaType) (sf : Option ExtractionStatus)
    (store : List MediaItem) : ListResponse :=
  let page := effectivePage pageQ
  let limit := effectiveLimit limitQ
  let skip := (page - 1) * limit
  let filtered := store.filter (matchesFilter pf tf sf)
  let items := ((sortByCreatedDesc filtered).drop skip.toNat).take limit.toNat
  let total : Int := filtered.length
  let totalPages := jsCeilDiv total limit
  { media := items,
    pagination :=
      { page := page, limit := limit, total := total, totalPages := totalPages,
        hasNext := decide (page < totalPages), hasPrev := decide (1 < page) } }

/-- Case-insensitive containment of the query inside an optional text
field (model of the store text search over title and description). -/
def containsCI (hay : Option String) (needle : String) : Bool :=
  match hay with
  | none => false
  | some h => containsSub (lowerStr needle).data (lowerStr h).data

/-- Whether an item matches the free-text query. -/
def textMatches (q : String) (m : MediaItem) : Bool :=
  containsCI m.title q || containsCI m.description q

/-- Body of a GET /media/search response (query echo kept to the free
text part). -/
structure SearchResponse where
  media : List MediaItem
  pagination : Pagination
  query : Option String
deriving DecidableEq, Repr

/-- GET /media/search of src/src/api.ts: like the list handler with the
platform and type filters, restricted to text-matching items when a
free-text query is present (relevance ranking is computed inside the
store; the windowing and pagination arithmetic is the handler's). -/
def searchMedia (q : Option String) (pageQ limitQ : Option String)
    (pf : Option Platform) (tf : Option MediaType)
    (store : List MediaItem) : SearchResponse :=
  let page := effectivePage pageQ
  let limit := effectiveLimit limitQ
  let skip := (page - 1) * limit
  let base := store.filter (matchesFilter pf tf none)
  let filtered :=
    match q with
    | some qs => base.filter (textMatches qs)
    | none => base
  let items := ((sortByCreatedDesc filtered).drop skip.toNat).take limit.toNat
  let total : Int := filtered.length
  let totalPages := jsCeilDiv total limit
  { media := items,
    pagination :=
      { page := page, limit := limit, total := total, totalPages := totalPages,
        hasNext := decide (page < totalPages), hasPrev := decide (1 < page) },
    query := q }

/- ===================== Concrete fixtures ===================== -/

/-- A validator that accepts every URL (concrete instance for closed
evaluations). -/
def allValid : String → ValidationResult := fun _ => ⟨true, none⟩

/-- A validator that rejects every URL with a fixed message (concrete
instance for closed evaluations). -/
def rejectingValidator : String → ValidationResult :=
  fun _ => ⟨false, some "Invalid URL format"⟩

/-- The identity as a string normalizer (concrete instance for closed
evaluations). -/
def idNormalize : String → String := fun s => s

/-- A platform detector that answers generic (concrete instance for
closed evaluations). -/
def genericDetect : String → Platform := fun _ => .generic

/-- A stored item for https://example.com/a. -/
def sampleItem : MediaItem :=
  mkMedia 1 "https://example.com/a" "https://example.com/a" .generic 0

/-- A stored item for https://example.com/b. -/
def sampleItemB : MediaItem :=
  mkMedia 3 "https://example.com/b" "https://example.com/b" .generic 2

/-- A PATCH payload that tries to overwrite every protected field. -/
def samplePayload : UpdatePayload :=
  { url := some "https://evil.example/x",
    normalizedUrl := some "https://evil.example/x",
    underscoreId := some 99, createdAt := some 123, updatedAt := some 456,
    title := some "New title", description := none, thumbnail := none,
    duration := none, type := some .video, platform := some .youtube,
    extractionStatus := some .completed, extractionError := none,
    metadata := none, tags := some ["t"] }

/- ===================== Helper lemmas ===================== -/

theorem charToNatOfNatValid (n : Nat) (h : n.isValidChar) :
    (Char.ofNat n).toNat = n := by
  unfold Char.ofNat
  rw [dif_pos h]
  simp [Char.ofNatAux, Char.toNat]
  rfl

theorem charToLowerIdem (c : Char) :
    Char.toLower (Char.toLower c) = Char.toLower c := by
  unfold Char.toLower
  by_cases h : c.toNat ≥ 65 ∧ c.toNat ≤ 90
  · rw [if_pos h]
    have hval : (c.toNat + 32).isValidChar := Or.inl (by omega)
    have hn : (Char.ofNat (c.toNat + 32)).toNat = c.toNat + 32 :=
      charToNatOfNatValid _ hval
    rw [if_neg (by omega)]
  · rw [if_neg h, if_neg h]

theorem lowerStrIdem (s : String) : lowerStr (lowerStr s) = lowerStr s := by
  simp only [lowerStr, List.map_map]
  exact congrArg String.mk (List.map_congr_left fun c _ => charToLowerIdem c)

theorem stripSlashAppend (x : String) : stripSlash ("/" ++ x) = x := by
  unfold stripSlash
  have h : ("/" ++ x).data = '/' :: x.data := by simp [String.data_append]
  rw [h]
  simp

/- ===================== C1 ===================== -/

/-- C1: re-registering a URL whose canonical form is already stored is
claimed to answer 200 with the existing record.  The POST /media
handler of src/src/api.ts instead answers 409 with an error message
(and the existing record attached), at the very input on which the
repository's own test suite expects 200 with the same id and no error
field; the handler of src/unnamed/part_001 answers 200 as claimed.
The store stays unchanged (one item for that canonical URL) in both. -/
theorem c1_apiTs_duplicate_answers_conflict :
    postMediaA allValid idNormalize genericDetect (some "https://example.com/a")
        [sampleItem] [sampleItem] 2 5
      = (.conflictExisting "Media URL already exists" sampleItem, [sampleItem], [.findOne]) ∧
    statusOf (.conflictExisting "Media URL already exists" sampleItem) = 409 ∧
    postMediaB allValid idNormalize genericDetect (some "https://example.com/a")
        [sampleItem] [sampleItem] 2 5
      = (.okExisting sampleItem, [sampleItem], [.findOne]) ∧
    statusOf (.okExisting sampleItem) = 200 := by
  refine ⟨?_, rfl, ?_, rfl⟩ <;> rfl

/- ===================== C9 ===================== -/

/-- C9: a request carrying no resolvable caller identity is claimed to
be answered 401 with the uniform body.  The media routes of
src/src/api.ts mount no auth middleware, so an unauthenticated POST
/media runs the handler and creates the item (201), at the very input
on which the repository's own test suite expects 401; the routes of
src/unnamed/part_001 reject it with the uniform 401 body as claimed. -/
theorem c9_apiTs_unauthenticated_not_rejected :
    routePostA none allValid idNormalize genericDetect
        (some "https://example.com/a") [] [] 1 0
      = .ok (.createdNew sampleItem, [sampleItem], [.findOne, .create]) ∧
    statusOf (.createdNew sampleItem) = 201 ∧
    routePostB none allValid idNormalize genericDetect
        (some "https://example.com/a") [] [] 1 0
      = .error authenticationRequired ∧
    authenticationRequired.success = false ∧
    authenticationRequired.code = "AUTHENTICATION_REQUIRED" := by
  refine ⟨?_, rfl, rfl, rfl, rfl⟩
  rfl

/- ===================== C6 ===================== -/

/-- C6 counterexample: a requested page of -1 is below 1 but is not
treated as 1 — the handlers compute parseInt(page) || 1, and -1 is
truthy, so the effective page stays -1. -/
theorem c6_counterexample_negative_page_kept :
    effectivePage (some "-1") = -1 ∧ (-1 : Int) < 1 ∧
    effectivePage (some "-1") ≠ 1 := by
  refine ⟨rfl, by decide, by decide⟩

/-- C6 (amended): a requested limit parsing above 100 is clamped to
100; a page value that is absent, digit-free or parsing to 0 is
treated as 1, and any other parsed page value — including negative
ones — is used as-is. -/
theorem c6_pagination_bounds_amended :
    (∀ (q : Option String) (n : Int),
        parseIntJS q = some n → 100 < n → effectiveLimit q = 100) ∧
    (∀ q : Option String, parseIntJS q = none → effectivePage q = 1) ∧
    (∀ q : Option String, parseIntJS q = some 0 → effectivePage q = 1) ∧
    (∀ (q : Option String) (n : Int),
        parseIntJS q = some n → n ≠ 0 → effectivePage q = n) := by
  refine ⟨?_, ?_, ?_, ?_⟩
  · intro q n hp hn
    unfold effectiveLimit jsOrDefault
    rw [hp]
    have hne : ¬ n = 0 := by omega
    show min (if n = 0 then 20 else n) 100 = 100
    rw [if_neg hne]
    exact min_eq_right (by omega)
  · intro q hp
    unfold effectivePage jsOrDefault
    rw [hp]
  · intro q hp
    unfold effectivePage jsOrDefault
    rw [hp]
    simp
  · intro q n hp hn
    unfold effectivePage jsOrDefault
    rw [hp]
    show (if n = 0 then 1 else n) = n
    rw [if_neg hn]

/-- C6 witness: the amended statement at concrete inputs. -/
theorem c6_witness :
    effectiveLimit (some "250") = 100 ∧ effectivePage none = 1 ∧
    effectivePage (some "0") = 1 ∧ effectivePage (some "7") = 7 :=
  ⟨c6_pagination_bounds_amended.1 (some "250") 250 (by decide) (by decide),
   c6_pagination_bounds_amended.2.1 none rfl,
   c6_pagination_bounds_amended.2.2.1 (some "0") (by decide),
   c6_pagination_bounds_amended.2.2.2 (some "7") 7 (by decide) (by decide)⟩

/- ===================== C2 ===================== -/

/-- C2 counterexample: a registration whose lookup misses but whose
create is rejected by the unique constraint (the canonical URL was
stored in between) does not get the found-existing response — both
handler variants rethrow the duplicate-key error unchanged, which
reaches the caller through the generic error responder. -/
theorem c2_counterexample_duplicate_key_rethrown :
    postMediaB allValid idNormalize genericDetect (some "https://example.com/a")
        [] [sampleItem] 2 5
      = (.thrown (.duplicateKey "https://example.com/a"), [sampleItem],
         [.findOne, .create]) ∧
    (PostOutcome.thrown (.duplicateKey "https://example.com/a"))
      ≠ .okExisting sampleItem ∧
    statusOf (.thrown (.duplicateKey "https://example.com/a")) = 500 ∧
    postMediaA allValid idNormalize genericDetect (some "https://example.com/a")
        [] [sampleItem] 2 5
      = (.thrown (.duplicateKey "https://example.com/a"), [sampleItem],
         [.findOne, .create]) := by
  refine ⟨rfl, by decide, rfl, rfl⟩

/-- C2 (amended): the try/catch of both POST /media handlers rethrows
storage errors unchanged, so a duplicate-key violation raised by the
unique constraint at create time always propagates to the caller as a
raw storage error; the found-existing success response is produced
only by the pre-create lookup. -/
theorem c2_storage_conflict_rethrown :
    ∀ (validate : String → ValidationResult) (normalize : String → String)
      (detect : String → Platform) (url : String)
      (storeAtLookup storeAtSave : List MediaItem) (freshId now : Nat),
      (validate url).isValid = true →
      findByNormalizedUrl storeAtLookup (normalize url) = none →
      (∃ m ∈ storeAtSave, m.normalizedUrl = normalize url) →
      postMediaA validate normalize detect (some url) storeAtLookup storeAtSave
          freshId now
        = (.thrown (.duplicateKey (normalize url)), storeAtSave,
           [.findOne, .create]) ∧
      postMediaB validate normalize detect (some url) storeAtLookup storeAtSave
          freshId now
        = (.thrown (.duplicateKey (normalize url)), storeAtSave,
           [.findOne, .create]) := by
  intro validate normalize detect url storeAtLookup storeAtSave freshId now
    hval hfind hdup
  have hany : (storeAtSave.any fun x =>
      x.normalizedUrl == (mkMedia freshId url (normalize url) (detect url) now).normalizedUrl)
      = true := by
    rw [List.any_eq_true]
    obtain ⟨m, hm, he⟩ := hdup
    refine ⟨m, hm, ?_⟩
    show (m.normalizedUrl == normalize url) = true
    rw [he]
    exact beq_self_eq_true _
  constructor <;>
    · simp [postMediaA, postMediaB, hval, hfind, createWithConstraint, hany]
      rfl

/-- C2 witness: the amended statement at a concrete raced input. -/
theorem c2_witness :
    postMediaA allValid idNormalize genericDetect (some "https://example.com/b")
        [] [sampleItemB] 4 9
      = (.thrown (.duplicateKey "https://example.com/b"), [sampleItemB],
         [.findOne, .create]) ∧
    postMediaB allValid idNormalize genericDetect (some "https://example.com/b")
        [] [sampleItemB] 4 9
      = (.thrown (.duplicateKey "https://example.com/b"), [sampleItemB],
         [.findOne, .create]) :=
  c2_storage_conflict_rethrown allValid idNormalize genericDetect
    "https://example.com/b" [] [sampleItemB] 4 9 rfl rfl
    ⟨sampleItemB, by decide, rfl⟩

/- ===================== C7 ===================== -/

/-- C7: a registration whose URL fails validation is answered 400 with
the validator's message, before any store operation is issued (the
operation trace is empty) and with the store unchanged, in both POST
/media variants. -/
theorem c7_validation_failure_is_400_before_store :
    ∀ (validate : String → ValidationResult) (normalize : String → String)
      (detect : String → Platform) (url msg : String)
      (storeAtLookup storeAtSave : List MediaItem) (freshId now : Nat),
      validate url = ⟨false, some msg⟩ →
      postMediaA validate normalize detect (some url) storeAtLookup storeAtSave
          freshId now
        = (.badRequest (some msg), storeAtSave, []) ∧
      postMediaB validate normalize detect (some url) storeAtLookup storeAtSave
          freshId now
        = (.badRequest (some msg), storeAtSave, []) ∧
      statusOf (.badRequest (some msg)) = 400 := by
  intro validate normalize detect url msg storeAtLookup storeAtSave freshId now hval
  refine ⟨?_, ?_, rfl⟩ <;> simp [postMediaA, postMediaB, hval]

/-- C7 witness: the statement at a concrete invalid input. -/
theorem c7_witness :
    postMediaA rejectingValidator idNormalize genericDetect (some "not-a-url")
        [sampleItem] [sampleItem] 7 7
      = (.badRequest (some "Invalid URL format"), [sampleItem], []) ∧
    postMediaB rejectingValidator idNormalize genericDetect (some "not-a-url")
        [sampleItem] [sampleItem] 7 7
      = (.badRequest (some "Invalid URL format"), [sampleItem], []) ∧
    statusOf (.badRequest (some "Invalid URL format")) = 400 :=
  c7_validation_failure_is_400_before_store rejectingValidator idNormalize
    genericDetect "not-a-url" "Invalid URL format" [sampleItem] [sampleItem]
    7 7 rfl

/- ===================== C5 ===================== -/

/-- C5: registering a URL whose canonical form is not yet stored
creates (201) an item with extractionStatus pending, type unknown,
empty tags and empty metadata, in both POST /media variants; and the
creation path of either variant only ever emits items whose
extractionStatus is pending. -/
theorem c5_create_branch_pending_defaults :
    (∀ (validate : String → ValidationResult) (normalize : String → String)
       (detect : String → Platform) (url : String) (store : List MediaItem)
       (freshId now : Nat),
       (validate url).isValid = true →
       findByNormalizedUrl store (normalize url) = none →
       postMediaA validate normalize detect (some url) store store freshId now
         = (.createdNew (mkMedia freshId url (normalize url) (detect url) now),
            store ++ [mkMedia freshId url (normalize url) (detect url) now],
            [.findOne, .create]) ∧
       postMediaB validate normalize detect (some url) store store freshId now
         = (.createdNew (mkMedia freshId url (normalize url) (detect url) now),
            store ++ [mkMedia freshId url (normalize url) (detect url) now],
            [.findOne, .create]) ∧
       statusOf (.createdNew (mkMedia freshId url (normalize url) (detect url) now))
         = 201 ∧
       (mkMedia freshId url (normalize url) (detect url) now).extractionStatus
         = .pending ∧
       (mkMedia freshId url (normalize url) (detect url) now).type = .unknown ∧
       (mkMedia freshId url (normalize url) (detect url) now).tags = [] ∧
       (mkMedia freshId url (normalize url) (detect url) now).metadata = []) ∧
    (∀ (validate : String → ValidationResult) (normalize : String → String)
       (detect : String → Platform) (body : Option String)
       (storeAtLookup storeAtSave : List MediaItem) (freshId now : Nat)
       (item : MediaItem) (newStore : List MediaItem) (ops : List StoreOp),
       postMediaA validate normalize detect body storeAtLookup storeAtSave
           freshId now = (.createdNew item, newStore, ops) →
       item.extractionStatus = .pending) ∧
    (∀ (validate : String → ValidationResult) (normalize : String → String)
       (detect : String → Platform) (body : Option String)
       (storeAtLookup storeAtSave : List MediaItem) (freshId now : Nat)
       (item : MediaItem) (newStore : List MediaItem) (ops : List StoreOp),
       postMediaB validate normalize detect body storeAtLookup storeAtSave
           freshId now = (.createdNew item, newStore, ops) →
       item.extractionStatus = .pending) := by
  refine ⟨?_, ?_, ?_⟩
  · intro validate normalize detect url store freshId now hval hfind
    have hany : (store.any fun x =>
        x.normalizedUrl == (mkMedia freshId url (normalize url) (detect url) now).normalizedUrl)
        = false := by
      rw [List.any_eq_false]
      intro x hx
      have := List.find?_eq_none.mp hfind x hx
      exact this
    refine ⟨?_, ?_, rfl, rfl, rfl, rfl, rfl⟩ <;>
      simp [postMediaA, postMediaB, hval, hfind, createWithConstraint, hany]
  · intro validate normalize detect body storeAtLookup storeAtSave freshId now
      item newStore ops h
    cases body with
    | none => simp [postMediaA] at h
    | some url =>
      simp only [postMediaA] at h
      split at h
      · split at h
        · simp at h
        · split at h
          · simp only [Prod.mk.injEq, PostOutcome.createdNew.injEq] at h
            rw [← h.1]
            rfl
          · simp at h
      · simp at h
  · intro validate normalize detect body storeAtLookup storeAtSave freshId now
      item newStore ops h
    cases body with
    | none => simp [postMediaB] at h
    | some url =>
      simp only [postMediaB] at h
      split at h
      · split at h
        · simp at h
        · split at h
          · simp only [Prod.mk.injEq, PostOutcome.createdNew.injEq] at h
            rw [← h.1]
            rfl
          · simp at h
      · simp at h

/-- C5 witness: the creation statement at a concrete fresh URL. -/
theorem c5_witness :
    postMediaA allValid idNormalize genericDetect (some "https://example.com/b")
        [sampleItem] [sampleItem] 2 5
      = (.createdNew (mkMedia 2 "https://example.com/b" "https://example.com/b"
           .generic 5),
         [sampleItem, mkMedia 2 "https://example.com/b" "https://example.com/b"
           .generic 5],
         [.findOne, .create]) ∧
    postMediaB allValid idNormalize genericDetect (some "https://example.com/b")
        [sampleItem] [sampleItem] 2 5
      = (.createdNew (mkMedia 2 "https://example.com/b" "https://example.com/b"
           .generic 5),
         [sampleItem, mkMedia 2 "https://example.com/b" "https://example.com/b"
           .generic 5],
         [.findOne, .create]) ∧
    statusOf (.createdNew (mkMedia 2 "https://example.com/b"
        "https://example.com/b" .generic 5)) = 201 ∧
    (mkMedia 2 "https://example.com/b" "https://example.com/b" .generic 5).extractionStatus
      = .pending ∧
    (mkMedia 2 "https://example.com/b" "https://example.com/b" .generic 5).type
      = .unknown ∧
    (mkMedia 2 "https://example.com/b" "https://example.com/b" .generic 5).tags
      = [] ∧
    (mkMedia 2 "https://example.com/b" "https://example.com/b" .generic 5).metadata
      = [] :=
  c5_create_branch_pending_defaults.1 allValid idNormalize genericDetect
    "https://example.com/b" [sampleItem] 2 5 rfl (by decide)

/- ===================== C8 ===================== -/

/-- C8: the PATCH handler strips url, normalizedUrl, _id, createdAt
(and updatedAt) from every update payload before it reaches the store,
so after any update every stored item still carries the id, url,
normalizedUrl and createdAt of an item that was already in the store;
and the DELETE handler only removes items, so every surviving item is
unchanged. -/
theorem c8_protected_fields_immutable :
    (∀ (mid : Nat) (payload : UpdatePayload) (store : List MediaItem)
       (now : Nat) (x : MediaItem),
       x ∈ (patchMedia mid payload store now).2 →
       ∃ m ∈ store, x.id = m.id ∧ x.url = m.url ∧
         x.normalizedUrl = m.normalizedUrl ∧ x.createdAt = m.createdAt) ∧
    (∀ (mid : Nat) (store : List MediaItem) (x : MediaItem),
       x ∈ (deleteMedia mid store).2 → x ∈ store) := by
  constructor
  · intro mid payload store now x hx
    unfold patchMedia at hx
    cases hfind : store.find? (fun m => m.id == mid) with
    | none =>
        rw [hfind] at hx
        exact ⟨x, hx, rfl, rfl, rfl, rfl⟩
    | some m =>
        rw [hfind] at hx
        simp only [List.mem_map] at hx
        obtain ⟨a, ha, hax⟩ := hx
        by_cases hid : (a.id == mid) = true
        · rw [if_pos hid] at hax
          refine ⟨a, ha, ?_, ?_, ?_, ?_⟩ <;> rw [← hax] <;> rfl
        · rw [if_neg hid] at hax
          exact ⟨a, ha, by rw [← hax], by rw [← hax], by rw [← hax], by rw [← hax]⟩
  · intro mid store x hx
    unfold deleteMedia at hx
    cases hfind : store.find? (fun m => m.id == mid) with
    | none =>
        rw [hfind] at hx
        exact hx
    | some m =>
        rw [hfind] at hx
        exact (List.mem_filter.mp hx).1

/-- C8 witness: a payload attacking every protected field, applied to a
concrete store. -/
theorem c8_witness :
    (∃ m ∈ [sampleItem],
       (applyUpdate sampleItem (stripProtected samplePayload) 9).id = m.id ∧
       (applyUpdate sampleItem (stripProtected samplePayload) 9).url = m.url ∧
       (applyUpdate sampleItem (stripProtected samplePayload) 9).normalizedUrl
         = m.normalizedUrl ∧
       (applyUpdate sampleItem (stripProtected samplePayload) 9).createdAt
         = m.createdAt) ∧
    sampleItem ∈ (deleteMedia 99 [sampleItem]).2 :=
  ⟨c8_protected_fields_immutable.1 1 samplePayload [sampleItem] 9
     (applyUpdate sampleItem (stripProtected samplePayload) 9) (by decide),
   c8_protected_fields_immutable.2 99 [sampleItem] sampleItem (by decide)⟩

/- ===================== C10 ===================== -/

theorem jsCeilDivBounds (t l : Int) (hl : 0 < l) :
    (jsCeilDiv t l - 1) * l < t ∧ t ≤ jsCeilDiv t l * l := by
  unfold jsCeilDiv
  rw [Int.fdiv_eq_ediv _ (le_of_lt hl)]
  constructor
  · have h1 : -t < ((-t) / l + 1) * l := Int.lt_ediv_add_one_mul_self (-t) hl
    nlinarith
  · have h2 : (-t) / l * l ≤ -t := Int.ediv_mul_le (-t) (ne_of_gt hl)
    nlinarith

/-- C10: the pagination object emitted by the list and search handlers
is internally consistent for the effective page and limit of the
request: totalPages is the ceiling of total over limit (literally the
handlers' Math.ceil(total/limit), and — whenever the effective limit
is positive — the unique integer squeezed by the ceiling bounds),
hasNext holds exactly when page < totalPages, and hasPrev exactly when
page > 1. -/
theorem c10_pagination_internally_consistent :
    ∀ (pageQ limitQ q : Option String) (pf : Option Platform)
      (tf : Option MediaType) (sf : Option ExtractionStatus)
      (store : List MediaItem),
      paginationLawful (listMedia pageQ limitQ pf tf sf store).pagination ∧
      paginationLawful (searchMedia q pageQ limitQ pf tf store).pagination := by
  intro pageQ limitQ q pf tf sf store
  constructor <;>
  · refine ⟨rfl, ?_, ?_, ?_⟩
    · exact decide_eq_true_iff
    · exact decide_eq_true_iff
    · intro hl
      exact jsCeilDivBounds _ _ hl

/-- C10 witness: the consistency statement at a concrete request. -/
theorem c10_witness :
    paginationLawful
      (listMedia (some "2") (some "200") none none none [sampleItem]).pagination ∧
    paginationLawful
      (searchMedia (some "x") (some "2") (some "200") none none
        [sampleItem]).pagination :=
  c10_pagination_internally_consistent (some "2") (some "200") (some "x")
    none none none [sampleItem]

/- ===================== C3 / C4 helper lemmas ===================== -/

theorem portDropIdem (sc : String) (po : Option Nat) :
    (if (if po = defaultPort sc then none else po) = defaultPort sc then none
     else (if po = defaultPort sc then none else po))
    = (if po = defaultPort sc then none else po) := by
  by_cases h : po = defaultPort sc
  · rw [if_pos h]
    by_cases h2 : (none : Option Nat) = defaultPort sc
    · rw [if_pos h2]
    · rw [if_neg h2]
  · rw [if_neg h, if_neg h]

theorem pathDropIdem (pa : String) :
    (if (if pa = "/" then "" else pa) = "/" then ""
     else (if pa = "/" then "" else pa))
    = (if pa = "/" then "" else pa) := by
  by_cases h : pa = "/"
  · rw [if_pos h, if_neg (by decide : ¬(("" : String) = "/"))]
  · rw [if_neg h, if_neg h]

theorem filterIdentityIdem (l : List (String × String)) :
    (l.filter isIdentityParam).filter isIdentityParam
      = l.filter isIdentityParam := by
  rw [List.filter_eq_self]
  intro a ha
  exact (List.mem_filter.mp ha).2

theorem normalizeUrlYoutuBe (s h : String) (po : Option Nat) (pa : String)
    (q : List (String × String)) (f : Option String)
    (h1 : lowerStr h = "youtu.be") :
    normalizeUrl ⟨s, h, po, pa, q, f⟩ =
      ⟨lowerStr s, "www.youtube.com",
       if po = defaultPort (lowerStr s) then none else po,
       "/watch", [("v", stripSlash pa)], none⟩ := by
  unfold normalizeUrl lowerParts foldAliases stripTracking dropDefaults
  simp [h1, isIdentityParam]

theorem normalizeUrlYoutubeHost (s h : String) (po : Option Nat) (pa : String)
    (q : List (String × String)) (f : Option String)
    (h1 : lowerStr h = "youtube.com" ∨ lowerStr h = "m.youtube.com"
          ∨ lowerStr h = "www.youtube.com") :
    normalizeUrl ⟨s, h, po, pa, q, f⟩ =
      ⟨lowerStr s, "www.youtube.com",
       if po = defaultPort (lowerStr s) then none else po,
       if pa = "/" then "" else pa,
       q.filter isIdentityParam, none⟩ := by
  unfold normalizeUrl lowerParts foldAliases stripTracking dropDefaults
  rcases h1 with h1 | h1 | h1 <;> simp [h1]

theorem normalizeUrlGeneric (s h : String) (po : Option Nat) (pa : String)
    (q : List (String × String)) (f : Option String)
    (h1 : ¬ lowerStr h = "youtu.be") (h2 : ¬ lowerStr h = "youtube.com")
    (h3 : ¬ lowerStr h = "m.youtube.com")
    (h4 : ¬ lowerStr h = "www.youtube.com") :
    normalizeUrl ⟨s, h, po, pa, q, f⟩ =
      ⟨lowerStr s, lowerStr h,
       if po = defaultPort (lowerStr s) then none else po,
       if pa = "/" then "" else pa, q, none⟩ := by
  unfold normalizeUrl lowerParts foldAliases stripTracking dropDefaults
  simp [h1, h2, h3, h4]

theorem normalizeUrlIdem (u : UrlParts) :
    normalizeUrl (normalizeUrl u) = normalizeUrl u := by
  obtain ⟨s, h, po, pa, q, f⟩ := u
  by_cases h1 : lowerStr h = "youtu.be"
  · rw [normalizeUrlYoutuBe s h po pa q f h1]
    rw [normalizeUrlYoutubeHost (lowerStr s) "www.youtube.com" _ _ _ _
      (Or.inr (Or.inr (by decide)))]
    simp only [lowerStrIdem]
    simp only [UrlParts.mk.injEq]
    refine ⟨trivial, trivial, portDropIdem _ _, by decide, ?_, trivial⟩
    simp [isIdentityParam]
  · by_cases hB : lowerStr h = "youtube.com" ∨ lowerStr h = "m.youtube.com"
        ∨ lowerStr h = "www.youtube.com"
    · rw [normalizeUrlYoutubeHost s h po pa q f hB]
      rw [normalizeUrlYoutubeHost (lowerStr s) "www.youtube.com" _ _ _ _
        (Or.inr (Or.inr (by decide)))]
      simp only [lowerStrIdem]
      simp only [UrlParts.mk.injEq]
      exact ⟨trivial, trivial, portDropIdem _ _, pathDropIdem pa, filterIdentityIdem q, trivial⟩
    · push_neg at hB
      rw [normalizeUrlGeneric s h po pa q f h1 hB.1 hB.2.1 hB.2.2]
      rw [normalizeUrlGeneric (lowerStr s) (lowerStr h) _ _ _ _
        (by rw [lowerStrIdem]; exact h1) (by rw [lowerStrIdem]; exact hB.1)
        (by rw [lowerStrIdem]; exact hB.2.1) (by rw [lowerStrIdem]; exact hB.2.2)]
      simp only [lowerStrIdem]
      simp only [UrlParts.mk.injEq]
      exact ⟨trivial, trivial, portDropIdem _ _, pathDropIdem pa, trivial, trivial⟩

/- ===================== C3 ===================== -/

/-- C3: normalizeUrl is idempotent — for every URL accepted by
validateUrl, normalizing an already-normalized URL is a no-op. -/
theorem c3_normalizeUrl_idempotent (u : UrlParts)
    (_h : (validateUrl u).isValid = true) :
    normalizeUrl (normalizeUrl u) = normalizeUrl u :=
  normalizeUrlIdem u

/-- C3 witness: idempotence at a concrete valid URL. -/
theorem c3_witness :
    (validateUrl exampleUrl).isValid = true ∧
    normalizeUrl (normalizeUrl exampleUrl) = normalizeUrl exampleUrl :=
  ⟨by decide, c3_normalizeUrl_idempotent exampleUrl (by decide)⟩

/- ===================== C4 ===================== -/

/-- C4: for every YouTube video id X, the short-link form youtu.be/X,
the desktop form www.youtube.com/watch?v=X and the mobile form
m.youtube.com/watch?v=X all normalize to one identical canonical
URL. -/
theorem c4_platform_alias_folding (x : String) :
    normalizeUrl (youtuBeUrl x) = normalizeUrl (watchUrl x) ∧
    normalizeUrl (watchUrl x) = normalizeUrl (mWatchUrl x) := by
  have e1 : normalizeUrl (youtuBeUrl x)
      = ⟨"https", "www.youtube.com", none, "/watch", [("v", x)], none⟩ := by
    show normalizeUrl ⟨"https", "youtu.be", none, "/" ++ x, [], none⟩ = _
    rw [normalizeUrlYoutuBe _ _ _ _ _ _ (by decide)]
    rw [stripSlashAppend]
    simp only [UrlParts.mk.injEq]
    exact ⟨by decide, trivial, by decide, trivial, trivial, trivial⟩
  have e2 : normalizeUrl (watchUrl x)
      = ⟨"https", "www.youtube.com", none, "/watch", [("v", x)], none⟩ := by
    show normalizeUrl ⟨"https", "www.youtube.com", none, "/watch", [("v", x)], none⟩ = _
    rw [normalizeUrlYoutubeHost _ _ _ _ _ _ (Or.inr (Or.inr (by decide)))]
    simp only [UrlParts.mk.injEq]
    refine ⟨by decide, trivial, by decide, by decide, ?_, trivial⟩
    simp [isIdentityParam]
  have e3 : normalizeUrl (mWatchUrl x)
      = ⟨"https", "www.youtube.com", none, "/watch", [("v", x)], none⟩ := by
    show normalizeUrl ⟨"https", "m.youtube.com", none, "/watch", [("v", x)], none⟩ = _
    rw [normalizeUrlYoutubeHost _ _ _ _ _ _ (Or.inr (Or.inl (by decide)))]
    simp only [UrlParts.mk.injEq]
    refine ⟨by decide, trivial, by decide, by decide, ?_, trivial⟩
    simp [isIdentityParam]
  exact ⟨e1.trans e2.symm, e2.trans e3.symm⟩
